import Mathlib

/-
  Shallow embedding of the invite-based-authentication repository
  (src/src/auth.js, src/src/api.js, the database layer and the validation
  helpers), together with proofs of the specification claims.

  Timestamps are modelled as integers (seconds); `CURRENT_TIMESTAMP` becomes
  an explicit `now : Int` argument threaded into every operation that the
  database would timestamp.  Random generation (auth tokens, invite codes)
  is external input, so generated strings are passed as arguments.  A JS
  property access on a `null` row (a thrown TypeError) is modelled with
  `Except Unit`.
-/

namespace InviteAuth

/-- The number of seconds in one day; `'+7 days'` and `'-30 days'` in the
SQL become `7 * day` and `30 * day`. -/
def day : Int := 86400

/-- A row of the `users` table (`create_tables` in the database layer):
`username TEXT PRIMARY KEY`, `password TEXT NOT NULL` (the bcrypt hash),
`is_admin BOOLEAN NOT NULL DEFAULT 0`. -/
structure UserRow where
  username : String
  password : String
  is_admin : Bool
deriving DecidableEq

/-- A row of the `sessions` table: `auth_token TEXT NOT NULL`,
`username TEXT NOT NULL` with `FOREIGN KEY (username) REFERENCES
users(username) ON DELETE CASCADE`, `last_active DATETIME DEFAULT
CURRENT_TIMESTAMP`. -/
structure SessionRow where
  auth_token : String
  username : String
  last_active : Int
deriving DecidableEq

/-- A row of the `invites` table: `invite_code TEXT`, `expiration DATETIME
DEFAULT (DATETIME(CURRENT_TIMESTAMP, '+7 days'))`. -/
structure InviteRow where
  invite_code : String
  expiration : Int
deriving DecidableEq

/-- A row of the `logs` table: `message TEXT NOT NULL`,
`timestamp DATETIME DEFAULT CURRENT_TIMESTAMP`. -/
structure LogRow where
  message : String
  timestamp : Int
deriving DecidableEq

/-- The persistent state: the four tables provisioned by `create_tables`.
Lists are kept in insertion order. -/
structure DB where
  users : List UserRow
  sessions : List SessionRow
  invites : List InviteRow
  logs : List LogRow
deriving DecidableEq

/-- `SELECT * FROM users WHERE username = ?` via `get_row`: the first
matching row, or `none` (JS `null`). -/
def get_user (db : DB) (username : String) : Option UserRow :=
  db.users.find? (fun r => r.username == username)

/-- `SELECT ... FROM sessions WHERE auth_token = ?` via `get_row`. -/
def get_session (db : DB) (auth_token : String) : Option SessionRow :=
  db.sessions.find? (fun r => r.auth_token == auth_token)

/-- `SELECT * FROM invites WHERE invite_code = ?` via `get_row`. -/
def get_invite (db : DB) (invite_code : String) : Option InviteRow :=
  db.invites.find? (fun r => r.invite_code == invite_code)

/-- `log(message)` from the database layer: `if (message != null)` insert the
message with the current timestamp.  `none` models JS `null`/`undefined`
(an absent argument); note that the empty string is `!= null` in JS, so it
is inserted. -/
def log (db : DB) (now : Int) (message : Option String) : DB :=
  match message with
  | none => db
  | some m => { db with logs := db.logs ++ [⟨m, now⟩] }

/-- `check_username` from auth.js: the row lookup compared against `null`. -/
def check_username (db : DB) (username : String) : Bool :=
  (get_user db username).isSome

/-- `check_password` from auth.js, parameterised by the external bcrypt
`compareSync`.  When `get_row` returns `null` the JS dereferences
`user_info.password` and throws a TypeError, modelled as `.error ()`. -/
def check_password (compareSync : String → String → Bool) (db : DB)
    (username password : String) : Except Unit Bool :=
  match get_user db username with
  | none => .error ()
  | some user_info => .ok (compareSync password user_info.password)

/-- `get_username` from auth.js: `get_row(...).username`, which throws a
TypeError when no session row matches the token. -/
def get_username (db : DB) (auth_token : String) : Except Unit String :=
  match get_session db auth_token with
  | none => .error ()
  | some s => .ok s.username

/-- `check_invite_code` from auth.js: existence of a row with the code;
the `expiration` column is not consulted. -/
def check_invite_code (db : DB) (invite_code : String) : Bool :=
  (get_invite db invite_code).isSome

/-- `create_user` from auth.js, parameterised by the external bcrypt
`hashSync`.  It first deletes the invite-code row, then inserts the user
row.  `username` is the primary key of `users`, so the insert throws when
the username is already present; the `.error` carries the state at the
throw (the invite deletion has already been executed and is not rolled
back — there is no transaction). -/
def create_user (hashSync : String → String) (db : DB) (now : Int)
    (username password invite_code : String) : Except DB DB :=
  let password_hash := hashSync password
  let db1 : DB :=
    { db with invites := db.invites.filter (fun r => r.invite_code != invite_code) }
  if check_username db1 username then
    .error db1
  else
    let db2 : DB :=
      { db1 with users := db1.users ++ [⟨username, password_hash, false⟩] }
    .ok (log db2 now (some ("Created new user '" ++ username ++
      "', used invite code '" ++ invite_code ++ "'.")))

/-- `delete_user` from auth.js: `DELETE FROM users WHERE username = ?`.
The `sessions` table declares `ON DELETE CASCADE` on its `username`
foreign key, so the delete also removes that user's session rows; then the
action is logged. -/
def delete_user (db : DB) (now : Int) (username : String) : DB :=
  let db1 : DB :=
    { db with
      users := db.users.filter (fun r => r.username != username),
      sessions := db.sessions.filter (fun r => r.username != username) }
  log db1 now (some ("Deleted user '" ++ username ++ "'."))

/-- `create_session` from auth.js: the randomly generated token is an
argument; a session row is inserted (its `last_active` takes the
`CURRENT_TIMESTAMP` default), the action is logged, the token returned. -/
def create_session (db : DB) (now : Int) (username auth_token : String) :
    String × DB :=
  let db1 : DB :=
    { db with sessions := db.sessions ++ [⟨auth_token, username, now⟩] }
  (auth_token, log db1 now (some ("Created new session for '" ++ username ++ "'.")))

/-- `check_session` from auth.js: look the token up; when found, refresh
`last_active` to the current time and return the owning username; when not
found, return `null` and leave the state untouched. -/
def check_session (db : DB) (now : Int) (auth_token : String) :
    Option String × DB :=
  match get_session db auth_token with
  | some session_info =>
      let updated := db.sessions.map
        (fun r => if r.auth_token == auth_token then { r with last_active := now } else r)
      (some session_info.username, { db with sessions := updated })
  | none => (none, db)

/-- `delete_session` from auth.js: resolve the owning username via
`get_username` (which throws on an unknown token), delete the session row,
log the action. -/
def delete_session (db : DB) (now : Int) (auth_token : String) :
    Except Unit DB :=
  match get_username db auth_token with
  | .error e => .error e
  | .ok username =>
      let db1 : DB :=
        { db with sessions := db.sessions.filter (fun r => r.auth_token != auth_token) }
      .ok (log db1 now (some ("Deleted session for '" ++ username ++ "'.")))

/-- `create_invite_code` from auth.js: the randomly generated code is an
argument; the row is inserted with the schema default expiration of issue
time plus 7 days, the action is logged, the code returned. -/
def create_invite_code (db : DB) (now : Int) (invite_code : String) :
    String × DB :=
  let db1 : DB :=
    { db with invites := db.invites ++ [⟨invite_code, now + 7 * day⟩] }
  (invite_code, log db1 now (some ("Created new invite code '" ++ invite_code ++ "'.")))

/-- The UTC day index of a timestamp — the date prefix of its rendered
text form.  Lean's `Int` division is Euclidean, which is floor division
for the positive divisor `day`. -/
def utc_day (ts : Int) : Int := ts / day

/-- `clean_database` from the database layer: three deletes against the
current time, bound to `new Date().toISOString()`.  The sessions and logs
deletes wrap the bound value in `DATETIME(?, '-30 days')`, which re-emits
SQLite text format `YYYY-MM-DD HH:MM:SS`, so their comparisons against the
stored defaults agree with chronological order.  The invites delete binds
the raw ISO text `YYYY-MM-DDTHH:MM:SS.sssZ` and compares it
lexicographically with the stored `YYYY-MM-DD HH:MM:SS` expiration: the
outcome is decided by the `YYYY-MM-DD` prefix, and on an equal date the
space at index 10 sorts before the letter T, so a row is deleted exactly
when the expiration's UTC day is on or before the sweep's UTC day — even
when the expiration instant itself is still in the future. -/
def clean_database (db : DB) (now : Int) : DB :=
  { db with
    invites := db.invites.filter (fun r => ! decide (utc_day r.expiration ≤ utc_day now)),
    sessions := db.sessions.filter (fun r => ! decide (r.last_active < now - 30 * day)),
    logs := db.logs.filter (fun r => ! decide (r.timestamp < now - 30 * day)) }

/-- `is_alphanumeric` from validation.js: the regex `[a-z0-9]+` with the
case-insensitive flag, anchored on both sides — a nonempty string of ASCII
letters and digits. -/
def is_alphanumeric (s : String) : Bool :=
  s.length > 0 && s.toList.all (fun c => c.isAlphanum)

/-- `is_between_lengths` from validation.js. -/
def is_between_lengths (s : String) (min max : Nat) : Bool :=
  s.length ≥ min && s.length ≤ max

/-- The outcomes of the `POST /signup` handler in api.js, one per response
branch. -/
inductive SignupResult where
  | invalid_request
  | invalid_username
  | username_exists
  | invalid_invite
  | server_error
  | ok (auth_token : String)
deriving DecidableEq

/-- The `POST /signup` handler from api.js: presence checks (a JS falsy
test, so the empty string counts as absent), username shape validation,
uniqueness pre-check, invite-code check, then `create_user` followed by
`create_session`.  The freshly generated session token is the final
argument.  A throw inside `create_user` is caught by the handler's
try/catch and becomes a 500 response. -/
def signup (hashSync : String → String) (db : DB) (now : Int)
    (username password invite_code auth_token : String) : SignupResult × DB :=
  if username == "" || password == "" || invite_code == "" then
    (.invalid_request, db)
  else if ! (is_alphanumeric username && is_between_lengths username 1 32) then
    (.invalid_username, db)
  else if check_username db username then
    (.username_exists, db)
  else if ! check_invite_code db invite_code then
    (.invalid_invite, db)
  else
    match create_user hashSync db now username password invite_code with
    | .error db1 => (.server_error, db1)
    | .ok db1 =>
        let (t, db2) := create_session db1 now username auth_token
        (.ok t, db2)

/-- Stand-in for the external bcrypt hash, which the specification treats
as a black-box one-way function; used only to instantiate the
hash-parameterised operations at concrete inputs. -/
def hashM (p : String) : String := "bcrypt$" ++ p

/-- Stand-in verify counterpart of `hashM`. -/
def compareM (p h : String) : Bool := h == hashM p

/-
  Helper lemmas.
-/

/-- Searching a filtered list finds nothing when the search predicate and
the filter predicate exclude each other on the list's elements. -/
theorem find?_filter_none {α : Type} (p q : α → Bool) :
    ∀ l : List α, (∀ x ∈ l, q x = true → p x = false) →
      (l.filter p).find? q = none := by
  intro l
  induction l with
  | nil => intro _; rfl
  | cons a l ih =>
      intro h
      by_cases hp : p a = true
      · have hq : ¬ q a = true := by
          intro hqa
          have hpa := h a (List.mem_cons_self a l) hqa
          rw [hp] at hpa
          simp at hpa
        rw [List.filter_cons_of_pos hp, List.find?_cons_of_neg _ hq]
        exact ih (fun x hx => h x (List.mem_cons_of_mem a hx))
      · rw [List.filter_cons_of_neg hp]
        exact ih (fun x hx => h x (List.mem_cons_of_mem a hx))

/-- Presence of an invite code is equivalent to a row with that code
existing, with no condition on expiration. -/
theorem check_invite_code_iff (db : DB) (c : String) :
    check_invite_code db c = true ↔ ∃ r ∈ db.invites, r.invite_code = c := by
  simp [check_invite_code, get_invite, List.find?_isSome]

/-- On the success path (all guards pass and the code row is present) the
signup handler returns the fresh token and the resulting state has every
row with the redeemed code deleted from the invites table. -/
theorem signup_ok_run (hashSync : String → String) (db : DB) (now : Int)
    (u p c t : String) (hu : u ≠ "") (hp : p ≠ "") (hc : c ≠ "")
    (hshape : (is_alphanumeric u && is_between_lengths u 1 32) = true)
    (hname : check_username db u = false)
    (hinv : check_invite_code db c = true) :
    (signup hashSync db now u p c t).1 = .ok t ∧
    (signup hashSync db now u p c t).2.invites = db.invites.filter (fun r => r.invite_code != c) := by
  have hu' : (u == "") = false := beq_eq_false_iff_ne.mpr hu
  have hp' : (p == "") = false := beq_eq_false_iff_ne.mpr hp
  have hc' : (c == "") = false := beq_eq_false_iff_ne.mpr hc
  have hname1 : check_username { db with invites := db.invites.filter (fun r => r.invite_code != c) } u = false := hname
  constructor <;>
    simp [signup, create_user, create_session, log, hu', hp', hc', hshape, hname, hinv, hname1]

/-- When all guards before the invite check pass but the code row is
absent, the signup handler rejects with the invalid-invite response. -/
theorem signup_invalid_invite (hashSync : String → String) (db : DB) (now : Int)
    (u p c t : String) (hu : u ≠ "") (hp : p ≠ "") (hc : c ≠ "")
    (hshape : (is_alphanumeric u && is_between_lengths u 1 32) = true)
    (hname : check_username db u = false)
    (hinv : check_invite_code db c = false) :
    (signup hashSync db now u p c t).1 = .invalid_invite := by
  have hu' : (u == "") = false := beq_eq_false_iff_ne.mpr hu
  have hp' : (p == "") = false := beq_eq_false_iff_ne.mpr hp
  have hc' : (c == "") = false := beq_eq_false_iff_ne.mpr hc
  simp [signup, hu', hp', hc', hshape, hname, hinv]

/-
  Concrete states used by witnesses and counterexamples.
-/

/-- The empty database. -/
def dbEmpty : DB := ⟨[], [], [], []⟩

/-- A database holding the user alice and one session for alice. -/
def dbAlice : DB :=
  ⟨[⟨"alice", hashM "pw", false⟩], [⟨"tok", "alice", 0⟩], [], []⟩

/-- A database holding a single invite code whose expiration (time 0) is in
the past relative to current time `100 * day`. -/
def dbExpired : DB := ⟨[], [], [⟨"ab12cd", 0⟩], []⟩

/-- A database for the housekeeping claim's failing input: the sweep runs
at `10 * day + 7200` (02:00 UTC of day 10) and the only invite expires at
`10 * day + 82800` (23:00 UTC of the same day — still in the future); the
session and the log entry are fresh (one day old). -/
def dbSameDay : DB :=
  ⟨[⟨"alice", "h", false⟩],
   [⟨"s", "alice", 9 * day⟩],
   [⟨"future", 10 * day + 82800⟩],
   [⟨"m", 9 * day⟩]⟩

/-- A database where username alice is taken and invite code1 is pending. -/
def dbTaken : DB := ⟨[⟨"alice", "h", false⟩], [], [⟨"code1", 50⟩], []⟩

/-
  Claim theorems.
-/

/-- C2, counterexample: with no user named alice, `check_password` does not
return false — it throws (the JS dereferences `user_info.password` on a
`null` row), refuting the fails-closed claim. -/
theorem claim_C2_cex :
    check_password compareM dbEmpty "alice" "pw" = .error () := rfl

/-- C2, amended: `check_password` throws when the username does not exist;
when the user exists it returns the result of the bcrypt comparison
against the stored hash (false on mismatch). -/
theorem claim_C2 (cmp : String → String → Bool) (db : DB) (u p : String) :
    (get_user db u = none → check_password cmp db u p = .error ()) ∧
    (∀ r, get_user db u = some r → check_password cmp db u p = .ok (cmp p r.password)) := by
  constructor
  · intro h
    simp [check_password, h]
  · intro r h
    simp [check_password, h]

/-- Witness for C2 at a concrete database: alice exists, the wrong password
verifies to false. -/
theorem claim_C2_witness :
    check_password compareM dbAlice "alice" "bad" = .ok false := by
  have h := (claim_C2 compareM dbAlice "alice" "bad").2 ⟨"alice", hashM "pw", false⟩ rfl
  exact h

/-- C4, counterexample: `check_invite_code` returns true for a code whose
expiration (time 0) is earlier than the current time (`100 * day`),
refuting the claimed expiration check. -/
theorem claim_C4_cex :
    check_invite_code dbExpired "ab12cd" = true ∧ (0 : Int) < 100 * day := by
  constructor
  · rfl
  · decide

/-- C4, amended: `check_invite_code` returns true iff a record with that
code exists; the expiration column is not consulted. -/
theorem claim_C4 (db : DB) (c : String) :
    check_invite_code db c = true ↔ ∃ r ∈ db.invites, r.invite_code = c := by
  simp [check_invite_code, get_invite, List.find?_isSome]

/-- Witness for C4 at a concrete database. -/
theorem claim_C4_witness :
    check_invite_code dbExpired "ab12cd" = true :=
  (claim_C4 dbExpired "ab12cd").mpr ⟨⟨"ab12cd", 0⟩, by decide, rfl⟩

/-- C5, counterexample: on a token with no session row, `delete_session`
throws (the JS `get_username` dereferences `.username` on a `null` row),
refuting the must-not-crash claim. -/
theorem claim_C5_cex :
    delete_session dbEmpty 0 "tok" = .error () := rfl

/-- C5, amended: `delete_session` throws exactly when no session row with
the token exists, and completes normally when one does. -/
theorem claim_C5 (db : DB) (now : Int) (t : String) :
    (get_session db t = none → delete_session db now t = .error ()) ∧
    (∀ s, get_session db t = some s → ∃ db2, delete_session db now t = .ok db2) := by
  constructor
  · intro h
    simp [delete_session, get_username, h]
  · intro s h
    simp [delete_session, get_username, h]

/-- Witness for C5 at a concrete database with a live session. -/
theorem claim_C5_witness :
    ∃ db2, delete_session dbAlice 1 "tok" = .ok db2 :=
  (claim_C5 dbAlice 1 "tok").2 ⟨"tok", "alice", 0⟩ rfl

/-- C6: `check_session` returns not-found and leaves the state unchanged
when no session matches; when one matches it returns the owning username,
every session row with that token has its last_active refreshed to the
current time, and nothing outside the sessions table changes. -/
theorem claim_C6 (db : DB) (now : Int) (t : String) :
    (get_session db t = none → check_session db now t = (none, db)) ∧
    (∀ s, get_session db t = some s →
      (check_session db now t).1 = some s.username ∧
      (∀ r ∈ (check_session db now t).2.sessions, r.auth_token = t → r.last_active = now) ∧
      (check_session db now t).2.users = db.users ∧
      (check_session db now t).2.invites = db.invites ∧
      (check_session db now t).2.logs = db.logs) := by
  constructor
  · intro h
    simp [check_session, h]
  · intro s hs
    refine ⟨?_, ?_, ?_, ?_, ?_⟩
    · simp [check_session, hs]
    · intro r hr hrt
      simp only [check_session, hs] at hr
      simp only [List.mem_map] at hr
      obtain ⟨r0, _, hfr⟩ := hr
      by_cases h0 : (r0.auth_token == t) = true
      · rw [if_pos h0] at hfr
        rw [← hfr]
      · rw [if_neg h0] at hfr
        subst hfr
        exact absurd (beq_iff_eq.mpr hrt) h0
    · simp [check_session, hs]
    · simp [check_session, hs]
    · simp [check_session, hs]

/-- Witness for C6 at a concrete database: validating the live token
returns its owner. -/
theorem claim_C6_witness :
    (check_session dbAlice 5 "tok").1 = some "alice" :=
  ((claim_C6 dbAlice 5 "tok").2 ⟨"tok", "alice", 0⟩ rfl).1

/-- C7, evaluated at the failing input: the sweep is claimed to delete only
invites whose expiration lies before the current time and to leave every
fresher record unchanged, but at a sweep time of 02:00 UTC it deletes an
invite expiring at 23:00 UTC of the same day — the stored expiration text
compares lexicographically below the bound ISO text because the space at
index 10 sorts before the letter T — while the fresh session and log entry
are, as claimed, untouched. -/
theorem claim_C7 :
    (10 * day + 7200 : Int) < 10 * day + 82800 ∧
    (clean_database dbSameDay (10 * day + 7200)).invites = [] ∧
    (clean_database dbSameDay (10 * day + 7200)).sessions = dbSameDay.sessions ∧
    (clean_database dbSameDay (10 * day + 7200)).logs = dbSameDay.logs := by
  refine ⟨by decide, by decide, by decide, by decide⟩

/-- C8, counterexample: logging the empty string is not a no-op — the JS
guard `message != null` is true for the empty string, so an empty message
row is inserted, refuting the no-op-on-empty claim. -/
theorem claim_C8_cex :
    (log dbEmpty 0 (some "")).logs = [⟨"", 0⟩] ∧ log dbEmpty 0 (some "") ≠ dbEmpty := by
  constructor
  · rfl
  · decide

/-- C8, amended: `log` is a no-op only when the message is null/absent; for
every string message, the empty string included, it appends one
timestamped record and touches nothing else. -/
theorem claim_C8 (db : DB) (now : Int) (m : String) :
    log db now none = db ∧
    (log db now (some m)).logs = db.logs ++ [⟨m, now⟩] ∧
    (log db now (some m)).users = db.users ∧
    (log db now (some m)).sessions = db.sessions ∧
    (log db now (some m)).invites = db.invites :=
  ⟨rfl, rfl, rfl, rfl, rfl⟩

/-- C9: on a token with no session row, `check_session` returns not-found
and the state is returned entirely unchanged — no update, no log entry, no
mutation of any table. -/
theorem claim_C9 (db : DB) (now : Int) (t : String)
    (h : get_session db t = none) :
    check_session db now t = (none, db) := by
  simp [check_session, h]

/-- Witness for C9 at a concrete database. -/
theorem claim_C9_witness :
    check_session dbAlice 3 "unknown" = (none, dbAlice) :=
  claim_C9 dbAlice 3 "unknown" rfl

/-- C1: deleting a user removes the user row and, via the schema's
`ON DELETE CASCADE` on sessions.username, every session row of that user;
afterwards the username no longer exists and any token whose session rows
all belonged to that user no longer validates. -/
theorem claim_C1 (db : DB) (now now2 : Int) (u t : String)
    (h : ∀ s ∈ db.sessions, s.auth_token = t → s.username = u) :
    check_username (delete_user db now u) u = false ∧
    (check_session (delete_user db now u) now2 t).1 = none := by
  have h1 : (db.users.filter (fun r => r.username != u)).find? (fun r => r.username == u) = none :=
    find?_filter_none _ _ _ (fun x _ hq => by simp [bne, hq])
  have h2 : (db.sessions.filter (fun r => r.username != u)).find? (fun r => r.auth_token == t) = none :=
    find?_filter_none _ _ _ (fun x hx hq => by
      have hxu : x.username = u := h x hx (beq_iff_eq.mp hq)
      simp [bne, hxu])
  constructor
  · simp [delete_user, log, check_username, get_user, h1]
  · simp [delete_user, log, check_session, get_session, h2]

/-- Witness for C1 at a concrete database: after deleting alice, the
username is gone and alice's session token no longer validates. -/
theorem claim_C1_witness :
    check_username (delete_user dbAlice 5 "alice") "alice" = false ∧
    (check_session (delete_user dbAlice 5 "alice") 6 "tok").1 = none :=
  claim_C1 dbAlice 5 6 "alice" "tok" (by decide)

/-- C10: `create_user` deletes the invite-code row before inserting the
user row, and the two are not wrapped in a transaction: when the username
is already taken the insert throws, and the state carried by the throw
already has the invite consumed (and the users table unchanged) — the
invite deletion is not rolled back. -/
theorem claim_C10 (hashSync : String → String) (db : DB) (now : Int)
    (u p c : String) (h : check_username db u = true) :
    create_user hashSync db now u p c =
      .error { db with invites := db.invites.filter (fun r => r.invite_code != c) } ∧
    check_invite_code { db with invites := db.invites.filter (fun r => r.invite_code != c) } c = false ∧
    ({ db with invites := db.invites.filter (fun r => r.invite_code != c) } : DB).users = db.users := by
  have h1 : check_username { db with invites := db.invites.filter (fun r => r.invite_code != c) } u = true := h
  have hfind : (db.invites.filter (fun r => r.invite_code != c)).find? (fun r => r.invite_code == c) = none :=
    find?_filter_none _ _ _ (fun x _ hq => by simp [bne, hq])
  refine ⟨?_, ?_, rfl⟩
  · simp [create_user, h1]
  · simp [check_invite_code, get_invite, hfind]

/-- Witness for C10 at a concrete database: alice is taken, so creating
alice again fails, yet invite code1 is consumed by the failed attempt. -/
theorem claim_C10_witness :
    create_user hashM dbTaken 0 "alice" "pw" "code1" =
      .error ⟨[⟨"alice", "h", false⟩], [], [], []⟩ := by
  have h := (claim_C10 hashM dbTaken 0 "alice" "pw" "code1" (by decide)).1
  exact h

/-- C3, counterexample: with an invite whose expiration (time 0) is long
past at current time `100 * day`, the sign-up redemption path still
succeeds — redemption after the 7-day expiration does not fail, refuting
the third conjunct of the claim. -/
theorem claim_C3_cex :
    (0 : Int) < 100 * day ∧
    (signup hashM dbExpired (100 * day) "alice" "pw" "ab12cd" "tok").1 =
      SignupResult.ok "tok" := by
  constructor
  · decide
  · rfl

/-- C3, amended: immediately after issue the code validates, one signup
redemption succeeds and consumes the code, and a second redemption of the
same code fails; a redemption after the 7-day expiration, however, fails
only once a housekeeping sweep has deleted the expired row — before the
sweep an expired code still redeems. -/
theorem claim_C3 (db : DB) (now : Int) (code : String) (hcode : code ≠ "") :
    check_invite_code (create_invite_code db now code).2 code = true ∧
    (∀ now1 u p t, u ≠ "" → p ≠ "" →
      (is_alphanumeric u && is_between_lengths u 1 32) = true →
      check_username (create_invite_code db now code).2 u = false →
      (signup hashM (create_invite_code db now code).2 now1 u p code t).1 = SignupResult.ok t ∧
      check_invite_code (signup hashM (create_invite_code db now code).2 now1 u p code t).2 code = false ∧
      (∀ now2 u2 p2 t2, u2 ≠ "" → p2 ≠ "" →
        (is_alphanumeric u2 && is_between_lengths u2 1 32) = true →
        check_username (signup hashM (create_invite_code db now code).2 now1 u p code t).2 u2 = false →
        (signup hashM (signup hashM (create_invite_code db now code).2 now1 u p code t).2 now2 u2 p2 code t2).1 = SignupResult.invalid_invite)) ∧
    (∀ nowL now3 u p t,
      (∀ r ∈ (create_invite_code db now code).2.invites, r.invite_code = code → r.expiration < nowL) →
      u ≠ "" → p ≠ "" →
      (is_alphanumeric u && is_between_lengths u 1 32) = true →
      check_username (clean_database (create_invite_code db now code).2 nowL) u = false →
      (signup hashM (clean_database (create_invite_code db now code).2 nowL) now3 u p code t).1 = SignupResult.invalid_invite) := by
  have hinv1 : check_invite_code (create_invite_code db now code).2 code = true := by
    apply (check_invite_code_iff _ _).mpr
    exact ⟨⟨code, now + 7 * day⟩, by simp [create_invite_code, log], rfl⟩
  refine ⟨hinv1, ?_, ?_⟩
  · intro now1 u p t hu hp hshape hname
    have hrun := signup_ok_run hashM (create_invite_code db now code).2 now1 u p code t
      hu hp hcode hshape hname hinv1
    have hfind : ((create_invite_code db now code).2.invites.filter
        (fun r => r.invite_code != code)).find? (fun r => r.invite_code == code) = none :=
      find?_filter_none _ _ _ (fun x _ hq => by simp [bne, hq])
    have hinv2 : check_invite_code (signup hashM (create_invite_code db now code).2 now1 u p code t).2 code = false := by
      simp [check_invite_code, get_invite, hrun.2, hfind]
    refine ⟨hrun.1, hinv2, ?_⟩
    intro now2 u2 p2 t2 hu2 hp2 hshape2 hname2
    exact signup_invalid_invite hashM _ now2 u2 p2 code t2 hu2 hp2 hcode hshape2 hname2 hinv2
  · intro nowL now3 u p t hexp hu hp hshape hname
    have hfind : ((create_invite_code db now code).2.invites.filter
        (fun r => ! decide (utc_day r.expiration ≤ utc_day nowL))).find? (fun r => r.invite_code == code) = none :=
      find?_filter_none _ _ _ (fun x hx hq => by
        have hlt := hexp x hx (beq_iff_eq.mp hq)
        have hdle : utc_day x.expiration ≤ utc_day nowL :=
          Int.ediv_le_ediv (by decide) (le_of_lt hlt)
        simp [hdle])
    have hinvL : check_invite_code (clean_database (create_invite_code db now code).2 nowL) code = false := by
      simp [check_invite_code, get_invite, clean_database, hfind]
    exact signup_invalid_invite hashM _ now3 u p code t hu hp hcode hshape hname hinvL

/-- Witness for C3 at concrete inputs: after issuing ab12cd, the code
validates, a first signup succeeds with the fresh token, and the code is
consumed by that signup. -/
theorem claim_C3_witness :
    check_invite_code (create_invite_code dbEmpty 0 "ab12cd").2 "ab12cd" = true ∧
    (signup hashM (create_invite_code dbEmpty 0 "ab12cd").2 1 "alice" "pw" "ab12cd" "tok1").1 = SignupResult.ok "tok1" ∧
    check_invite_code (signup hashM (create_invite_code dbEmpty 0 "ab12cd").2 1 "alice" "pw" "ab12cd" "tok1").2 "ab12cd" = false := by
  refine ⟨(claim_C3 dbEmpty 0 "ab12cd" (by decide)).1, ?_, ?_⟩
  · exact ((claim_C3 dbEmpty 0 "ab12cd" (by decide)).2.1 1 "alice" "pw" "tok1"
      (by decide) (by decide) (by decide) (by decide)).1
  · exact ((claim_C3 dbEmpty 0 "ab12cd" (by decide)).2.1 1 "alice" "pw" "tok1"
      (by decide) (by decide) (by decide) (by decide)).2.1

end InviteAuth
